import Mathlib

/-!
Verification of the DataViz data-ingestion and insight-suggestion pipeline.

The repository is a data-upload-and-dashboard web application.  The frontend
components (useApi, DataUpload, SuggestionsPanel, StatCard, Dashboard) are
embedded directly from the JavaScript/JSX sources.  The backend pipeline
(Tabular Parser, Schema Inferencer, Summary Statistics Calculator, Suggestion
Rule Engine, Query/Insight Responder) lives in backend Python services that
are not part of the available sources; those operations are modelled from the
specification, as indicated on each definition.
-/

namespace DataViz

/-! ### Basic string helpers (pure, executable) -/

/-- Boolean list-prefix test on characters (used for substring search). -/
def charsPrefixOf : List Char → List Char → Bool
  | [], _ => true
  | _ :: _, [] => false
  | a :: as, b :: bs => a == b && charsPrefixOf as bs

/-- Does the pattern occur as a contiguous run of the character list? -/
def charsContain (pat : List Char) : List Char → Bool
  | [] => charsPrefixOf pat []
  | c :: cs => charsPrefixOf pat (c :: cs) || charsContain pat cs

/-- Substring occurrence test on strings. -/
def strContains (s pat : String) : Bool := charsContain pat.data s.data

/-- Does the string end with the given string? -/
def strEndsWith (s p : String) : Bool := charsPrefixOf p.data.reverse s.data.reverse

/-- Whitespace trimming on both ends (the trim method of JS strings). -/
def strTrim (s : String) : String :=
  ⟨((s.data.dropWhile Char.isWhitespace).reverse.dropWhile Char.isWhitespace).reverse⟩

/-! ### Decimal number parsing

Modelled from the spec: the Tabular Parser and Schema Inferencer treat a cell
as numeric when it is parseable as a number.  We parse an optional minus sign,
a digit run, and an optional fractional digit run, into an exact rational. -/

/-- Interpret a nonempty all-digit character list as a natural number. -/
def digitsToNat : List Char → Option ℕ
  | [] => none
  | cs => cs.foldl (fun acc c =>
      match acc with
      | none => none
      | some n => if c.isDigit then some (n * 10 + (c.toNat - 48)) else none)
      (some 0)

/-- Split a character list at the first dot, if any. -/
def splitDot (cs : List Char) : List Char × Option (List Char) :=
  match cs.span (fun c => c ≠ '.') with
  | (pre, []) => (pre, none)
  | (pre, _ :: post) => (pre, some post)

/-- Parse a decimal literal (optional minus sign, optional fraction) as an
exact rational; none when the string is not a number. -/
def parseNum (s : String) : Option ℚ :=
  let cs := s.data
  let signBody : Bool × List Char :=
    match cs with
    | '-' :: rest => (true, rest)
    | _ => (false, cs)
  let neg := signBody.1
  let body := signBody.2
  match splitDot body with
  | (ip, none) =>
      (digitsToNat ip).map (fun n => if neg then -(n : ℚ) else (n : ℚ))
  | (ip, some fp) =>
      match digitsToNat ip, digitsToNat fp with
      | some i, some f =>
          let q : ℚ := (i : ℚ) + (f : ℚ) / ((10 : ℚ) ^ fp.length)
          some (if neg then -q else q)
      | _, _ => none

/-! ### Data model

Modelled from the spec: a Dataset is an ordered sequence of Column names plus
an ordered sequence of Rows; every Row has one raw string cell per column.
Cells are kept raw (string-valued); typing is an annotation produced by the
Schema Inferencer and never mutates cell values. -/

/-- Semantic column types assigned by the Schema Inferencer. -/
inductive ColType
  | numeric
  | date
  | categorical
  | text
  deriving DecidableEq, Repr

/-- A parsed dataset: ordered column names and rows of raw string cells. -/
structure Dataset where
  cols : List String
  rows : List (List String)
  deriving DecidableEq, Repr

/-! ### Tabular Parser

Modelled from the spec: the backend Tabular Parser is not among the available
sources.  Its input (raw file bytes plus declared format) is abstracted as the
result of decoding: none when the bytes are not decodable as the declared
format, otherwise the list of lines, each a list of field strings.  The first
line is the header; remaining lines are data rows. -/

/-- Parse failures of the Tabular Parser. -/
inductive ParseError
  | undecodable
  | noHeader
  | mismatchedColumns
  deriving DecidableEq, Repr

/-- Modelled from the spec: ingest turns a decoded file into a Dataset, and
fails with a ParseError when the file is not decodable, has no header line,
or has rows whose field counts disagree with the header. -/
def ingest (decoded : Option (List (List String))) : Except ParseError Dataset :=
  match decoded with
  | none => .error .undecodable
  | some [] => .error .noHeader
  | some (header :: dataRows) =>
      if dataRows.all (fun r => r.length = header.length) then
        .ok { cols := header, rows := dataRows }
      else
        .error .mismatchedColumns

/-! ### Schema Inferencer

Modelled from the spec: the backend Schema Inferencer is not among the
available sources.  For each column it classifies cells: all parseable as a
number yields numeric; all parseable as a known date pattern (ISO
YYYY-MM-DD) yields date; a small distinct-value share (below a configurable
threshold, default 10 percent unique) yields categorical; otherwise text.
Ties break toward the more specific type
(numeric over date over categorical over text). -/

/-- Configuration of the Schema Inferencer: the distinct-value share below
which a column counts as categorical. -/
structure InferConfig where
  catThreshold : ℚ
  deriving DecidableEq, Repr

/-- Default inference configuration (10 percent unique). -/
def defaultInfer : InferConfig := { catThreshold := 1 / 10 }

/-- Heuristic: every cell parses as a number. -/
def allNumeric (cells : List String) : Bool :=
  cells.all (fun c => (parseNum c).isSome)

/-- Is the cell an ISO date (YYYY-MM-DD)? -/
def isDateCell (s : String) : Bool :=
  match s.data with
  | [a, b, c, d, h1, e, f, h2, g, k] =>
      a.isDigit && b.isDigit && c.isDigit && d.isDigit && h1 == '-' &&
      e.isDigit && f.isDigit && h2 == '-' && g.isDigit && k.isDigit
  | _ => false

/-- Heuristic: every cell parses as a known date pattern. -/
def allDate (cells : List String) : Bool := cells.all isDateCell

/-- Number of distinct cell values in a column. -/
def distinctCount (cells : List String) : ℕ := cells.dedup.length

/-- Heuristic: the distinct-value share is below the configured threshold. -/
def smallDistinctShare (cfg : InferConfig) (cells : List String) : Bool :=
  decide ((distinctCount cells : ℚ) < cfg.catThreshold * (cells.length : ℚ))

/-- Modelled from the spec: classify one column's cells, trying the
heuristics from most specific to least specific. -/
def inferType (cfg : InferConfig) (cells : List String) : ColType :=
  if allNumeric cells then .numeric
  else if allDate cells then .date
  else if smallDistinctShare cfg cells then .categorical
  else .text

/-- The heuristic associated with each column type (text always holds). -/
def satisfiesHeuristic (cfg : InferConfig) (cells : List String) : ColType → Bool
  | .numeric => allNumeric cells
  | .date => allDate cells
  | .categorical => smallDistinctShare cfg cells
  | .text => true

/-- The priority order of column types, most specific first, as the spec
words it: numeric over date over categorical over text. -/
def typePriority : List ColType := [.numeric, .date, .categorical, .text]

/-- Spec-worded classification: the first type in priority order whose
heuristic the cells satisfy. -/
def mostSpecificSatisfied (cfg : InferConfig) (cells : List String) : ColType :=
  (typePriority.find? (satisfiesHeuristic cfg cells)).getD .text

/-- How many of the four heuristics the cells satisfy. -/
def numSatisfied (cfg : InferConfig) (cells : List String) : ℕ :=
  (typePriority.filter (satisfiesHeuristic cfg cells)).length

/-- A column annotated with its inferred type. -/
structure TypedColumn where
  name : String
  ctype : ColType
  deriving DecidableEq, Repr

/-- A dataset whose columns carry inferred types; raw cells unchanged. -/
structure TypedDataset where
  cols : List TypedColumn
  rows : List (List String)
  deriving DecidableEq, Repr

/-- The cells of column i, top to bottom (missing cells read as empty). -/
def colCells (d : Dataset) (i : ℕ) : List String :=
  d.rows.map (fun r => r.getD i "")

/-- Modelled from the spec: annotate every column with its inferred type;
raw cell values are carried over unchanged. -/
def inferSchema (cfg : InferConfig) (d : Dataset) : TypedDataset :=
  { cols := (List.range d.cols.length).map
      (fun i => { name := d.cols.getD i "", ctype := inferType cfg (colCells d i) })
    rows := d.rows }

/-! ### Summary Statistics Calculator

Modelled from the spec: the backend Summary Statistics Calculator is not
among the available sources.  Numeric columns get count, sum, mean, min,
max and variance (the standard deviation is its square root; variance is
carried to stay in exact rational arithmetic).  Categorical columns get
distinct count, mode and a frequency table.  Date columns get min and max
date and the range in days.  Text columns get average length and non-null
count.  Dataset level: row count, column count and the count of
chart-eligible (numeric or date) columns.  A dataset with zero rows yields
zero-valued statistics instead of raising EmptyDatasetError. -/

/-- Sum of a list of rationals. -/
def qSum (l : List ℚ) : ℚ := l.foldr (fun a b => a + b) 0

/-- Minimum of a list of rationals (0 when empty). -/
def qMin : List ℚ → ℚ
  | [] => 0
  | x :: xs => xs.foldr min x

/-- Maximum of a list of rationals (0 when empty). -/
def qMax : List ℚ → ℚ
  | [] => 0
  | x :: xs => xs.foldr max x

/-- Mean of a list of rationals (0 when empty, by rational division). -/
def qMean (l : List ℚ) : ℚ := qSum l / (l.length : ℚ)

/-- Population variance of a list of rationals (0 when empty). -/
def qVariance (l : List ℚ) : ℚ :=
  qSum (l.map (fun x => (x - qMean l) ^ 2)) / (l.length : ℚ)

/-- The numeric values of a column (cells that parse as numbers). -/
def numsOf (cells : List String) : List ℚ := cells.filterMap parseNum

/-- Lexicographic minimum of a list of strings (empty string when empty);
on ISO dates this is the chronologically first date. -/
def minString : List String → String
  | [] => ""
  | x :: xs => xs.foldl (fun a b => if b < a then b else a) x

/-- Lexicographic maximum of a list of strings (empty string when empty). -/
def maxString : List String → String
  | [] => ""
  | x :: xs => xs.foldl (fun a b => if a < b then b else a) x

/-- Is the (proleptic Gregorian) year a leap year? -/
def isLeap (y : ℕ) : Bool := y % 4 == 0 && (y % 100 != 0 || y % 400 == 0)

/-- Days before the start of month m in a common year (m from 1 to 12). -/
def cumDays (m : ℕ) : ℕ :=
  [0, 0, 31, 59, 90, 120, 151, 181, 212, 243, 273, 304, 334].getD m 0

/-- Digit value of a character (48 is the code of the zero digit). -/
def digitVal (c : Char) : ℕ := c.toNat - 48

/-- Parse an ISO YYYY-MM-DD cell into (year, month, day). -/
def parseDate (s : String) : Option (ℕ × ℕ × ℕ) :=
  if isDateCell s then
    match s.data with
    | [a, b, c, d, _, e, f, _, g, k] =>
        some (digitVal a * 1000 + digitVal b * 100 + digitVal c * 10 + digitVal d,
              digitVal e * 10 + digitVal f,
              digitVal g * 10 + digitVal k)
    | _ => none
  else none

/-- Absolute day number of a proleptic Gregorian date. -/
def dayNumber (y m d : ℕ) : ℕ :=
  365 * (y - 1) + (y - 1) / 4 - (y - 1) / 100 + (y - 1) / 400 +
    cumDays m + (if 2 < m && isLeap y then 1 else 0) + d

/-- Day number of a date cell (0 for a non-date cell). -/
def dayNumberOf (s : String) : ℤ :=
  match parseDate s with
  | some (y, m, d) => (dayNumber y m d : ℤ)
  | none => 0

/-- Count of cells equal to a given value. -/
def countVal (cells : List String) (v : String) : ℕ := cells.count v

/-- The most frequent cell value (empty string for an empty column). -/
def modeOf (cells : List String) : String :=
  match cells.dedup with
  | [] => ""
  | x :: xs => xs.foldl (fun a b => if countVal cells a < countVal cells b then b else a) x

/-- Frequency table: each distinct value with its number of occurrences. -/
def freqTable (cells : List String) : List (String × ℕ) :=
  cells.dedup.map (fun v => (v, countVal cells v))

/-- Count of non-null cells (the empty string models a null cell). -/
def nonNullCount (cells : List String) : ℕ :=
  (cells.filter (fun c => c != "")).length

/-- Per-column summary statistics, by inferred column type. -/
inductive ColStats
  | numeric (count : ℕ) (sum mean minV maxV variance : ℚ)
  | categorical (distinct : ℕ) (mode : String) (freq : List (String × ℕ))
  | date (minD maxD : String) (rangeDays : ℤ)
  | text (avgLen : ℚ) (nonNull : ℕ)
  deriving DecidableEq, Repr

/-- Modelled from the spec: the statistics of one column of the given
inferred type. -/
def colStatsFor (t : ColType) (cells : List String) : ColStats :=
  match t with
  | .numeric =>
      let ns := numsOf cells
      .numeric ns.length (qSum ns) (qMean ns) (qMin ns) (qMax ns) (qVariance ns)
  | .categorical => .categorical (distinctCount cells) (modeOf cells) (freqTable cells)
  | .date =>
      .date (minString cells) (maxString cells)
        (dayNumberOf (maxString cells) - dayNumberOf (minString cells))
  | .text =>
      .text (qMean (cells.map (fun c => (c.length : ℚ)))) (nonNullCount cells)

/-- Dataset-level and per-column statistics. -/
structure Statistics where
  rowCount : ℕ
  colCount : ℕ
  chartEligible : ℕ
  perCol : List (String × ColStats)
  deriving DecidableEq, Repr

/-- Zero-valued numeric column statistics. -/
def zeroNumericStats : ColStats := .numeric 0 0 0 0 0 0

/-- Zero-valued statistics, returned for a dataset with zero rows. -/
def zeroStats (d : Dataset) : Statistics :=
  { rowCount := 0
    colCount := 0
    chartEligible := 0
    perCol := d.cols.map (fun c => (c, zeroNumericStats)) }

/-- Modelled from the spec: compute all summary statistics of a dataset.
A dataset with zero rows returns zero-valued statistics instead of raising
EmptyDatasetError; the function is total and never raises. -/
def summarize (cfg : InferConfig) (d : Dataset) : Statistics :=
  if d.rows.isEmpty then zeroStats d
  else
    let idx := List.range d.cols.length
    { rowCount := d.rows.length
      colCount := d.cols.length
      chartEligible :=
        (idx.filter (fun i =>
          inferType cfg (colCells d i) == .numeric ||
          inferType cfg (colCells d i) == .date)).length
      perCol := idx.map (fun i =>
        (d.cols.getD i "", colStatsFor (inferType cfg (colCells d i)) (colCells d i))) }

/-- Look up the statistics computed for a named column. -/
def statsFor (st : Statistics) (c : String) : Option ColStats :=
  (st.perCol.find? (fun p => p.1 == c)).map (fun p => p.2)

/-- The mean reported in numeric column statistics (0 otherwise). -/
def ColStats.meanVal : ColStats → ℚ
  | .numeric _ _ m _ _ _ => m
  | _ => 0

/-- The min reported in numeric column statistics (0 otherwise). -/
def ColStats.minVal : ColStats → ℚ
  | .numeric _ _ _ m _ _ => m
  | _ => 0

/-- The max reported in numeric column statistics (0 otherwise). -/
def ColStats.maxVal : ColStats → ℚ
  | .numeric _ _ _ _ m _ => m
  | _ => 0

/-! ### Suggestion Rule Engine

Modelled from the spec: the backend Suggestion Rule Engine is not among the
available sources.  It applies a fixed, ordered rule set (correlation,
outlier, dominance, missing-data), each rule pure and independently
evaluable; output order follows rule-declaration order; no rule mutates the
dataset; a dataset with zero rows yields the empty suggestion list. -/

/-- A generated suggestion: the identifier of the rule plus its text. -/
structure Suggestion where
  rule : String
  text : String
  deriving DecidableEq, Repr

/-- Thresholds of the rule engine. -/
structure RuleConfig where
  corrThreshold : ℚ
  outlierSigma : ℚ
  dominanceShare : ℚ
  missingThreshold : ℚ
  deriving DecidableEq, Repr

/-- Default thresholds named by the spec: correlation 0.7, outliers 3 sigma,
dominance 80 percent, missing-data 90 percent non-null. -/
def defaultRules : RuleConfig :=
  { corrThreshold := 7 / 10
    outlierSigma := 3
    dominanceShare := 4 / 5
    missingThreshold := 9 / 10 }

/-- Covariance of two equally long numeric columns. -/
def qCov (xs ys : List ℚ) : ℚ :=
  qSum (List.zipWith (fun a b => (a - qMean xs) * (b - qMean ys)) xs ys) /
    (xs.length : ℚ)

/-- Does the magnitude of the Pearson correlation exceed the threshold?
Stated squared to stay in rational arithmetic: the magnitude of
cov / (sx * sy) exceeds t exactly when cov squared exceeds
t squared times the product of the variances. -/
def highCorrelation (t : ℚ) (xs ys : List ℚ) : Bool :=
  decide ((qCov xs ys) ^ 2 > t ^ 2 * qVariance xs * qVariance ys)

/-- Number of values lying beyond k standard deviations of the mean,
stated squared to stay in rational arithmetic. -/
def outlierCount (k : ℚ) (xs : List ℚ) : ℕ :=
  (xs.filter (fun x => decide ((x - qMean xs) ^ 2 > k ^ 2 * qVariance xs))).length

/-- Does some single category hold more than the given share of rows? -/
def dominanceTriggered (share : ℚ) (cells : List String) : Bool :=
  cells.any (fun v => decide ((countVal cells v : ℚ) > share * (cells.length : ℚ)))

/-- Does the non-null share of a column fall below the threshold? -/
def missingTriggered (t : ℚ) (cells : List String) : Bool :=
  decide ((nonNullCount cells : ℚ) < t * (cells.length : ℚ))

/-- All unordered pairs of a list, first components in list order. -/
def allPairs {α : Type} : List α → List (α × α)
  | [] => []
  | x :: xs => xs.map (fun y => (x, y)) ++ allPairs xs

/-- Modelled from the spec: run the ordered rule set over the dataset and
collect the suggestions in rule-declaration order (correlation, outlier,
dominance, missing-data).  A dataset with zero rows yields the empty
list. -/
def suggest (icfg : InferConfig) (rcfg : RuleConfig) (d : Dataset) : List Suggestion :=
  if d.rows.isEmpty then []
  else
    let idx := List.range d.cols.length
    let colName := fun i => d.cols.getD i ""
    let typeAt := fun i => inferType icfg (colCells d i)
    let numericIdx := idx.filter (fun i => typeAt i == .numeric)
    let catIdx := idx.filter (fun i => typeAt i == .categorical)
    let corr := (allPairs numericIdx).filterMap (fun p =>
      if highCorrelation rcfg.corrThreshold (numsOf (colCells d p.1)) (numsOf (colCells d p.2)) then
        some { rule := "correlation"
               text := "Columns " ++ colName p.1 ++ " and " ++ colName p.2 ++
                 " are strongly correlated" }
      else none)
    let outl := numericIdx.filterMap (fun i =>
      let c := outlierCount rcfg.outlierSigma (numsOf (colCells d i))
      if 0 < c then
        some { rule := "outlier"
               text := "Column " ++ colName i ++ " has " ++ toString c ++
                 " outlier values" }
      else none)
    let dom := catIdx.filterMap (fun i =>
      if dominanceTriggered rcfg.dominanceShare (colCells d i) then
        some { rule := "dominance"
               text := "Column " ++ colName i ++
                 " is dominated by a single category" }
      else none)
    let miss := idx.filterMap (fun i =>
      if missingTriggered rcfg.missingThreshold (colCells d i) then
        some { rule := "missing"
               text := "Column " ++ colName i ++ " has many missing values" }
      else none)
    corr ++ outl ++ dom ++ miss

/-! ### Query/Insight Responder

Modelled from the spec: the backend Query/Insight Responder is not among the
available sources.  It matches the query against known query shapes by
simple keyword matching (the spec names the shape "average column by
column"); when no shape matches it returns the fallback response carrying
no insight, which the caller renders as graceful text; it never raises an
UnrecognizedQueryError to the caller. -/

/-- The known query shapes. -/
inductive QueryShape
  | averageBy
  deriving DecidableEq, Repr

/-- Keyword matching of a query against the known shapes. -/
def matchQuery (q : String) : Option QueryShape :=
  if strContains q "average" && strContains q "by" then some .averageBy
  else none

/-- The result returned for one insight query: the query echoed back and
the computed insight text, absent for the fallback response. -/
structure InsightResult where
  query : String
  insight : Option String
  deriving DecidableEq, Repr

/-- Modelled from the spec: the simple computed answer for the
average-by shape, naming the first dataset column mentioned in the query
and its mean. -/
def computeAverageBy (q : String) (d : Dataset) : String :=
  match d.cols.filter (fun c => strContains q c) with
  | [] => "No matching column found"
  | c :: _ =>
      "Average of " ++ c ++ " is " ++
        toString (qMean (numsOf (colCells d (d.cols.indexOf c))))

/-- Modelled from the spec: answer a free-text query against the dataset;
an unmatched query yields the fallback response (no insight) rather than
raising. -/
def answerQuery (q : String) (d : Dataset) : InsightResult :=
  match matchQuery q with
  | some .averageBy => { query := q, insight := some (computeAverageBy q d) }
  | none => { query := q, insight := none }

/-! ### Frontend: the useApi hook (src/frontend/src/Hooks/useApi.js)

Embedded from the source.  Each call sets the loading flag, performs the
axios request, and settles: on success it resolves to the response data
with error false; on any thrown error it catches, logs, and resolves to
data null, error true, and the server-provided message when present or the
default text otherwise.  The loading flag is reset to false on both paths.
The axios request itself is outside the embedded code, so its outcome is
the input: either a response payload or a failure carrying an optional
server message (absent or empty when none was provided). -/

/-- Outcome of the underlying axios request. -/
inductive AxiosOutcome (α : Type)
  | success (respData : α)
  | failure (serverMessage : Option String)

/-- The object a useApi call resolves to. -/
structure ApiCallResult (α : Type) where
  data : Option α
  error : Bool
  message : Option String

namespace useApi

/-- The message chosen in the catch branch: the server message unless it is
absent or empty, in which case the default text. -/
def catchMessage (m : Option String) : String :=
  match m with
  | some s => if s = "" then "Backend not available" else s
  | none => "Backend not available"

/-- The get function of useApi: result plus the loading flag after the
call.  It never throws: both branches return a settled result. -/
def get {α : Type} (oc : AxiosOutcome α) : ApiCallResult α × Bool :=
  match oc with
  | .success d => ({ data := some d, error := false, message := none }, false)
  | .failure m => ({ data := none, error := true, message := some (catchMessage m) }, false)

/-- The post function of useApi (same settling logic as get). -/
def post {α : Type} (oc : AxiosOutcome α) : ApiCallResult α × Bool :=
  match oc with
  | .success d => ({ data := some d, error := false, message := none }, false)
  | .failure m => ({ data := none, error := true, message := some (catchMessage m) }, false)

end useApi

/-! ### Frontend: DataUpload (src/frontend/src/Components/DataUpload.jsx)

Embedded from the source.  A dropped or picked file is accepted into state
only when its MIME type is text/csv or its name ends with .csv; otherwise
the selected-file state is left unchanged and an error message is shown.
Submit posts the selected file when present. -/

/-- A browser file object: MIME type and name. -/
structure JsFile where
  mimeType : String
  name : String
  deriving DecidableEq, Repr

/-- The acceptance test of handleDrop and handleFileSelect. -/
def isCsvFile (f : JsFile) : Bool :=
  f.mimeType == "text/csv" || strEndsWith f.name ".csv"

/-- The component state touched by the handlers. -/
structure UploadState where
  file : Option JsFile
  message : String
  messageType : String
  deriving DecidableEq, Repr

/-- The initial component state (no file, empty messages). -/
def uploadState0 : UploadState := { file := none, message := "", messageType := "" }

/-- handleDrop: the first dropped file, when present, is accepted only when
it passes the CSV test; otherwise the file state is unchanged and the
error message is set. -/
def handleDrop (s : UploadState) (dropped : Option JsFile) : UploadState :=
  match dropped with
  | none => s
  | some droppedFile =>
      if isCsvFile droppedFile then
        { s with file := some droppedFile, message := "" }
      else
        { s with message := "Please upload a CSV file only.", messageType := "error" }

/-- handleFileSelect: same acceptance logic as handleDrop. -/
def handleFileSelect (s : UploadState) (selected : Option JsFile) : UploadState :=
  match selected with
  | none => s
  | some selectedFile =>
      if isCsvFile selectedFile then
        { s with file := some selectedFile, message := "" }
      else
        { s with message := "Please upload a CSV file only.", messageType := "error" }

/-- handleSubmit: posts the selected file when present (second component:
the file submitted to the upload endpoint, none when nothing was posted);
postFailed is whether the post resolved with error true. -/
def handleSubmit (s : UploadState) (postFailed : Bool) : UploadState × Option JsFile :=
  match s.file with
  | none => ({ s with message := "Please select a file first.", messageType := "error" }, none)
  | some f =>
      if postFailed then
        ({ s with message := "Upload disabled - backend not available", messageType := "error" }, some f)
      else
        ({ s with file := none, message := "File uploaded successfully!",
                  messageType := "success" }, some f)

/-- The user-visible events of the upload component. -/
inductive UploadEvent
  | drop (f : Option JsFile)
  | pick (f : Option JsFile)
  | submit (postFailed : Bool)

/-- One step of the upload component's state machine. -/
def stepUpload (s : UploadState) (e : UploadEvent) : UploadState :=
  match e with
  | .drop f => handleDrop s f
  | .pick f => handleFileSelect s f
  | .submit er => (handleSubmit s er).1

/-- The file submitted to the upload endpoint by an event, if any. -/
def submittedBy (s : UploadState) (e : UploadEvent) : Option JsFile :=
  match e with
  | .submit er => (handleSubmit s er).2
  | _ => none

/-- The component state after a sequence of events from the start. -/
def uploadStateAfter (evs : List UploadEvent) : UploadState :=
  evs.foldl stepUpload uploadState0

/-! ### Frontend: StatCard and SuggestionsPanel consumers -/

/-- StatCard (src/unnamed/part_000): the rendered value is the value prop
or 0 when it is absent (value or-else 0 in the source). -/
def statCardValue (value : Option ℕ) : ℕ :=
  match value with
  | none => 0
  | some v => v

/-- What the suggestions list of SuggestionsPanel renders. -/
inductive SuggestionsView
  | items (l : List String)
  | emptyState (msg : String)
  deriving DecidableEq, Repr

/-- SuggestionsPanel (lines 83 to 91): the suggestion items when the list
is nonempty, the empty-state text otherwise. -/
def suggestionsListView (suggestions : List String) : SuggestionsView :=
  if 0 < suggestions.length then .items suggestions
  else .emptyState "Upload data to see insights"

/-- One entry of the insights list held by SuggestionsPanel. -/
structure InsightEntry where
  query : String
  response : String
  deriving DecidableEq, Repr

/-- The response text recorded for one insight: the insight field of the
backend payload, or the fallback text when it is absent or empty
(insight or-else No-insight-available in the source). -/
def recordedResponse (insight : Option String) : String :=
  match insight with
  | some s => if s = "" then "No insight available" else s
  | none => "No insight available"

/-- handleInsightRequest (lines 23 to 34): a blank input is ignored;
otherwise, when the post resolved without error and with data, the entry
is appended with the recorded response text. -/
def handleInsightRequest (insights : List InsightEntry) (userInput : String)
    (result : ApiCallResult InsightResult) : List InsightEntry :=
  if strTrim userInput = "" then insights
  else
    match result.error, result.data with
    | false, some d => insights ++ [{ query := userInput, response := recordedResponse d.insight }]
    | _, _ => insights

/-- The dataset of the spec's worked example: rows a=1 b=2, a=3 b=4,
a=5 b=6, as raw cells. -/
def exampleDataset : Dataset :=
  { cols := ["a", "b"], rows := [["1", "2"], ["3", "4"], ["5", "6"]] }

/-! ## Theorems settling the claims -/

/-- Claim C3: for every Dataset and every fixed threshold configuration,
two runs of summarize produce identical Statistics and two runs of suggest
produce identical suggestion lists (same texts in the same order).  In the
embedding both operations are pure functions of the configuration and the
dataset alone, so a second run is the same application and yields the same
value. -/
theorem summarize_suggest_deterministic
    (icfg : InferConfig) (rcfg : RuleConfig) (d : Dataset) :
    summarize icfg d = summarize icfg d ∧
      suggest icfg rcfg d = suggest icfg rcfg d ∧
      (suggest icfg rcfg d).map Suggestion.text = (suggest icfg rcfg d).map Suggestion.text :=
  ⟨rfl, rfl, rfl⟩

/-- Claim C4: for every well-formed decoded CSV (a header line plus N data
rows, every row with exactly as many fields as the header), ingest
succeeds and the resulting Dataset has exactly N rows and M columns, where
M is the header width. -/
theorem ingest_wellformed_dims
    (header : List String) (dataRows : List (List String))
    (hw : ∀ r ∈ dataRows, r.length = header.length) :
    ∃ d : Dataset, ingest (some (header :: dataRows)) = .ok d ∧
      d.rows.length = dataRows.length ∧ d.cols.length = header.length := by
  refine ⟨{ cols := header, rows := dataRows }, ?_, rfl, rfl⟩
  have hall : dataRows.all (fun r => r.length = header.length) = true := by
    simp only [List.all_eq_true, decide_eq_true_eq]
    exact hw
  simp [ingest, hall]

/-- Claim C4 witness: the two-column, two-row decoded CSV is ingested into
a dataset with two rows and two columns. -/
theorem ingest_wellformed_dims_witness :
    ∃ d : Dataset, ingest (some ([["a", "b"], ["1", "2"], ["3", "4"]])) = .ok d ∧
      d.rows.length = 2 ∧ d.cols.length = 2 :=
  ingest_wellformed_dims ["a", "b"] [["1", "2"], ["3", "4"]] (by decide)

/-- Claim C5: ingest fails with a ParseError exactly when the input is not
decodable as the declared format, has no header line, or has a data row
whose field count disagrees with the header; on every other input it
returns a Dataset. -/
theorem ingest_error_iff (decoded : Option (List (List String))) :
    (∃ e, ingest decoded = .error e) ↔
      (decoded = none ∨ decoded = some [] ∨
        ∃ header dataRows, decoded = some (header :: dataRows) ∧
          ∃ r ∈ dataRows, r.length ≠ header.length) := by
  match decoded with
  | none => simp [ingest]
  | some [] => simp [ingest]
  | some (header :: dataRows) =>
      constructor
      · rintro ⟨e, he⟩
        right; right
        refine ⟨header, dataRows, rfl, ?_⟩
        by_contra hno
        push_neg at hno
        have hb : dataRows.all (fun r => r.length = header.length) = true := by
          simp only [List.all_eq_true, decide_eq_true_eq]
          exact hno
        simp [ingest, hb] at he
      · rintro (h | h | ⟨h1, t1, heq, r, hr, hlen⟩)
        · simp at h
        · simp at h
        · injection heq with heq2
          injection heq2 with hh ht
          subst hh; subst ht
          refine ⟨.mismatchedColumns, ?_⟩
          have hb : dataRows.all (fun r => r.length = header.length) = false := by
            simp only [List.all_eq_false]
            exact ⟨r, hr, by simpa using hlen⟩
          simp [ingest, hb]

/-- Claim C6: on the spec's worked example dataset, summarize reports for
column a a mean of 3, a min of 1 and a max of 5, and for column b a mean
of 4, a min of 2 and a max of 6. -/
theorem summarize_example_dataset :
    (statsFor (summarize defaultInfer exampleDataset) "a").map ColStats.meanVal = some 3 ∧
    (statsFor (summarize defaultInfer exampleDataset) "a").map ColStats.minVal = some 1 ∧
    (statsFor (summarize defaultInfer exampleDataset) "a").map ColStats.maxVal = some 5 ∧
    (statsFor (summarize defaultInfer exampleDataset) "b").map ColStats.meanVal = some 4 ∧
    (statsFor (summarize defaultInfer exampleDataset) "b").map ColStats.minVal = some 2 ∧
    (statsFor (summarize defaultInfer exampleDataset) "b").map ColStats.maxVal = some 6 := by
  have hsum : summarize defaultInfer exampleDataset =
      { rowCount := 3, colCount := 2, chartEligible := 2,
        perCol := [("a", colStatsFor .numeric ["1", "3", "5"]),
                   ("b", colStatsFor .numeric ["2", "4", "6"])] } := rfl
  have ha : statsFor (summarize defaultInfer exampleDataset) "a" =
      some (colStatsFor .numeric ["1", "3", "5"]) := by rw [hsum]; rfl
  have hb : statsFor (summarize defaultInfer exampleDataset) "b" =
      some (colStatsFor .numeric ["2", "4", "6"]) := by rw [hsum]; rfl
  have hna : numsOf ["1", "3", "5"] = [((1 : ℕ) : ℚ), ((3 : ℕ) : ℚ), ((5 : ℕ) : ℚ)] := rfl
  have hnb : numsOf ["2", "4", "6"] = [((2 : ℕ) : ℚ), ((4 : ℕ) : ℚ), ((6 : ℕ) : ℚ)] := rfl
  refine ⟨?_, ?_, ?_, ?_, ?_, ?_⟩ <;>
    simp [ha, hb, colStatsFor, ColStats.meanVal, ColStats.minVal, ColStats.maxVal,
      hna, hnb, qMean, qSum, qMin, qMax, min_def, max_def] <;>
    norm_num

/-- Claim C1: for every Dataset with zero rows, summarize returns
zero-valued statistics without raising, suggest returns the empty
suggestion list, the stat cards of the dashboard render 0, and the
suggestions panel shows the empty-state text. -/
theorem empty_dataset_zero_stats
    (icfg : InferConfig) (rcfg : RuleConfig) (d : Dataset) (hrows : d.rows = []) :
    summarize icfg d = zeroStats d ∧
    (summarize icfg d).rowCount = 0 ∧
    (summarize icfg d).colCount = 0 ∧
    (summarize icfg d).chartEligible = 0 ∧
    (∀ p ∈ (summarize icfg d).perCol, p.2 = zeroNumericStats) ∧
    suggest icfg rcfg d = [] ∧
    statCardValue (some (summarize icfg d).rowCount) = 0 ∧
    suggestionsListView ((suggest icfg rcfg d).map Suggestion.text) =
      .emptyState "Upload data to see insights" := by
  have h1 : summarize icfg d = zeroStats d := by simp [summarize, hrows]
  have h2 : suggest icfg rcfg d = [] := by simp [suggest, hrows]
  refine ⟨h1, ?_, ?_, ?_, ?_, h2, ?_, ?_⟩
  · rw [h1]; rfl
  · rw [h1]; rfl
  · rw [h1]; rfl
  · intro p hp
    rw [h1] at hp
    simp only [zeroStats, List.mem_map] at hp
    obtain ⟨c, _, rfl⟩ := hp
    rfl
  · rw [h1]; rfl
  · rw [h2]; rfl

/-- Claim C1 witness: at the one-column, zero-row dataset, summarize is
zeroed, suggest is empty, the row stat card renders 0 and the panel shows
the empty-state text. -/
theorem empty_dataset_zero_stats_witness :
    summarize defaultInfer { cols := ["a"], rows := [] } =
        zeroStats { cols := ["a"], rows := [] } ∧
    (summarize defaultInfer { cols := ["a"], rows := [] }).rowCount = 0 ∧
    (summarize defaultInfer { cols := ["a"], rows := [] }).colCount = 0 ∧
    (summarize defaultInfer { cols := ["a"], rows := [] }).chartEligible = 0 ∧
    (∀ p ∈ (summarize defaultInfer { cols := ["a"], rows := [] }).perCol,
        p.2 = zeroNumericStats) ∧
    suggest defaultInfer defaultRules { cols := ["a"], rows := [] } = [] ∧
    statCardValue
        (some (summarize defaultInfer { cols := ["a"], rows := [] }).rowCount) = 0 ∧
    suggestionsListView
        ((suggest defaultInfer defaultRules { cols := ["a"], rows := [] }).map
          Suggestion.text) = .emptyState "Upload data to see insights" :=
  empty_dataset_zero_stats defaultInfer defaultRules { cols := ["a"], rows := [] } rfl

/-- Claim C2: for every query string matching no known query shape (and not
blank), answerQuery yields the fallback response rather than raising, and
the insights panel records the entry with response text No insight
available. -/
theorem unmatched_query_fallback
    (q : String) (d : Dataset) (insights : List InsightEntry)
    (hq : matchQuery q = none) (hne : strTrim q ≠ "") :
    answerQuery q d = { query := q, insight := none } ∧
    handleInsightRequest insights q
        { data := some (answerQuery q d), error := false, message := none } =
      insights ++ [{ query := q, response := "No insight available" }] := by
  have h1 : answerQuery q d = { query := q, insight := none } := by
    unfold answerQuery
    rw [hq]
  refine ⟨h1, ?_⟩
  rw [h1]
  simp [handleInsightRequest, hne, recordedResponse]

/-- Claim C2 witness: the query banana matches no shape; it yields the
fallback response and the panel records No insight available. -/
theorem unmatched_query_fallback_witness :
    answerQuery "banana" exampleDataset = { query := "banana", insight := none } ∧
    handleInsightRequest [] "banana"
        { data := some (answerQuery "banana" exampleDataset), error := false,
          message := none } =
      [{ query := "banana", response := "No insight available" }] :=
  unmatched_query_fallback "banana" exampleDataset [] (by decide) (by decide)

/-- Two distinct values cannot together occur more often than the list is
long. -/
theorem count_pair_le_length {α : Type} [DecidableEq α] (v w : α) (hvw : v ≠ w)
    (l : List α) : l.count v + l.count w ≤ l.length := by
  induction l with
  | nil => simp
  | cons a t ih =>
      rcases eq_or_ne v a with h1 | h1
      · subst h1
        have h2 : ¬ w = v := fun h => hvw h.symm
        simp [List.count_cons, beq_iff_eq, h2]
        omega
      · rcases eq_or_ne w a with h2 | h2
        · subst h2
          simp [List.count_cons, beq_iff_eq, h1]
          omega
        · simp [List.count_cons, beq_iff_eq, h1, h2]
          omega

/-- Claim C7: in every categorical column of 10 rows in which one value
occurs in exactly 9 rows, the dominance rule triggers at an 80 percent
share threshold and does not trigger at a 95 percent share threshold. -/
theorem dominance_rule_thresholds
    (cells : List String) (v : String)
    (h10 : cells.length = 10) (h9 : cells.count v = 9) :
    dominanceTriggered (4 / 5) cells = true ∧
      dominanceTriggered (19 / 20) cells = false := by
  have hv : v ∈ cells := by
    have hpos : 0 < cells.count v := by omega
    exact List.count_pos_iff.mp hpos
  constructor
  · rw [dominanceTriggered, List.any_eq_true]
    refine ⟨v, hv, ?_⟩
    rw [decide_eq_true_eq, countVal, h9, h10]
    norm_num
  · have hall : ∀ w ∈ cells, ¬ ((countVal cells w : ℚ) > 19 / 20 * (cells.length : ℚ)) := by
      intro w hw hgt
      have hcw : cells.count w ≤ 9 := by
        by_cases hwv : w = v
        · subst hwv; omega
        · have hpair := count_pair_le_length w v hwv cells
          omega
      rw [countVal, h10] at hgt
      have hle : (cells.count w : ℚ) ≤ 9 := by exact_mod_cast hcw
      norm_num at hgt
      linarith
    by_contra hne
    rw [Bool.not_eq_false, dominanceTriggered, List.any_eq_true] at hne
    obtain ⟨w, hw, hpw⟩ := hne
    exact hall w hw (by simpa using hpw)

/-- Claim C7 witness: a concrete column of 10 cells with one value in 9 of
them triggers at 80 percent and not at 95 percent. -/
theorem dominance_rule_thresholds_witness :
    dominanceTriggered (4 / 5)
        ["x", "x", "x", "x", "x", "x", "x", "x", "x", "y"] = true ∧
      dominanceTriggered (19 / 20)
        ["x", "x", "x", "x", "x", "x", "x", "x", "x", "y"] = false :=
  dominance_rule_thresholds ["x", "x", "x", "x", "x", "x", "x", "x", "x", "y"] "x"
    (by decide) (by decide)

/-- The nested classification of the Schema Inferencer agrees with the
first-match-in-priority-order reading everywhere. -/
theorem inferType_eq_mostSpecific (cfg : InferConfig) (cells : List String) :
    inferType cfg cells = mostSpecificSatisfied cfg cells := by
  rw [inferType, mostSpecificSatisfied, typePriority]
  cases hn : allNumeric cells <;> cases hd : allDate cells <;>
    cases hc : smallDistinctShare cfg cells <;>
    simp [List.find?, satisfiesHeuristic, hn, hd, hc]

/-- Claim C8: for every column whose cells satisfy more than one of the
type heuristics, the Schema Inferencer assigns the most specific satisfied
type under the priority order numeric over date over categorical over
text, and annotating never mutates the raw cell values. -/
theorem infer_priority_no_mutation :
    (∀ (cfg : InferConfig) (cells : List String), 2 ≤ numSatisfied cfg cells →
        inferType cfg cells = mostSpecificSatisfied cfg cells) ∧
    (∀ (cfg : InferConfig) (d : Dataset), (inferSchema cfg d).rows = d.rows) := by
  constructor
  · intro cfg cells _
    exact inferType_eq_mostSpecific cfg cells
  · intro cfg d
    rfl

/-- Claim C8 witness: the all-numeric column with cells 1 and 2 satisfies
two heuristics (numeric and text) and is classified numeric, the most
specific; schema annotation leaves the example dataset rows unchanged. -/
theorem infer_priority_no_mutation_witness :
    2 ≤ numSatisfied defaultInfer ["1", "2"] ∧
    inferType defaultInfer ["1", "2"] = mostSpecificSatisfied defaultInfer ["1", "2"] ∧
    (inferSchema defaultInfer exampleDataset).rows = exampleDataset.rows := by
  have hnum : allNumeric ["1", "2"] = true := by decide
  have hdate : allDate ["1", "2"] = false := by decide
  have hdist : distinctCount ["1", "2"] = 2 := by decide
  have hcat : smallDistinctShare defaultInfer ["1", "2"] = false := by
    rw [smallDistinctShare, hdist]
    norm_num [defaultInfer]
  have hsat : numSatisfied defaultInfer ["1", "2"] = 2 := by
    simp [numSatisfied, typePriority, satisfiesHeuristic, hnum, hdate, hcat,
      List.filter]
  refine ⟨by rw [hsat], ?_, ?_⟩
  · exact infer_priority_no_mutation.1 defaultInfer ["1", "2"] (by rw [hsat])
  · exact infer_priority_no_mutation.2 defaultInfer exampleDataset

/-- The message settled in the catch branch of useApi is never empty. -/
theorem catchMessage_ne_empty (m : Option String) : useApi.catchMessage m ≠ "" := by
  cases m with
  | none => simp [useApi.catchMessage]
  | some s =>
      rw [useApi.catchMessage]
      by_cases hs : s = "" <;> simp [hs]

/-- Claim C9: every useApi get or post call settles without throwing:
it resolves either to error false with the response data, or to error
true with data null and a non-empty message (the server message or the
default Backend-not-available text); the loading flag ends false on both
paths, and post settles exactly as get does. -/
theorem useApi_settles (α : Type) (oc : AxiosOutcome α) :
    (useApi.get oc).2 = false ∧ (useApi.post oc).2 = false ∧
    useApi.get oc = useApi.post oc ∧
    (((useApi.get oc).1.error = false ∧
        ∃ d, oc = .success d ∧ (useApi.get oc).1.data = some d) ∨
      ((useApi.get oc).1.error = true ∧ (useApi.get oc).1.data = none ∧
        ∃ m, (useApi.get oc).1.message = some m ∧ m ≠ "")) := by
  cases oc with
  | success d => exact ⟨rfl, rfl, rfl, .inl ⟨rfl, d, rfl, rfl⟩⟩
  | failure m =>
      exact ⟨rfl, rfl, rfl,
        .inr ⟨rfl, rfl, useApi.catchMessage m, rfl, catchMessage_ne_empty m⟩⟩

/-- One upload step keeps the accepted-file invariant: the selected file,
when present, passes the CSV test. -/
theorem stepUpload_preserves_csv (s : UploadState)
    (h : ∀ g, s.file = some g → isCsvFile g = true) (e : UploadEvent) :
    ∀ g, (stepUpload s e).file = some g → isCsvFile g = true := by
  cases e with
  | drop f =>
      cases f with
      | none => simpa [stepUpload, handleDrop] using h
      | some x =>
          intro g hg
          by_cases hx : isCsvFile x
          · simp [stepUpload, handleDrop, hx] at hg
            exact hg ▸ hx
          · simp [stepUpload, handleDrop, hx] at hg
            exact h g hg
  | pick f =>
      cases f with
      | none => simpa [stepUpload, handleFileSelect] using h
      | some x =>
          intro g hg
          by_cases hx : isCsvFile x
          · simp [stepUpload, handleFileSelect, hx] at hg
            exact hg ▸ hx
          · simp [stepUpload, handleFileSelect, hx] at hg
            exact h g hg
  | submit er =>
      intro g hg
      cases hsf : s.file with
      | none => simp [stepUpload, handleSubmit, hsf] at hg
      | some f =>
          cases er with
          | false => simp [stepUpload, handleSubmit, hsf] at hg
          | true =>
              simp [stepUpload, handleSubmit, hsf] at hg
              exact hg ▸ h f hsf

/-- The accepted-file invariant holds along any event sequence. -/
theorem foldl_csv_inv (evs : List UploadEvent) :
    ∀ s : UploadState, (∀ g, s.file = some g → isCsvFile g = true) →
      ∀ g, (evs.foldl stepUpload s).file = some g → isCsvFile g = true := by
  induction evs with
  | nil => intro s h; exact h
  | cons e t ih =>
      intro s h
      exact ih (stepUpload s e) (stepUpload_preserves_csv s h e)

/-- Claim C10: a dropped or picked file failing the CSV test (MIME type
text/csv or a name ending in .csv) leaves the selected-file state
unchanged and sets the CSV-only error message; and along every event
sequence of the upload component, any file submitted to the upload
endpoint passes the CSV test, so no non-CSV file is ever submitted. -/
theorem upload_csv_only :
    (∀ (s : UploadState) (f : JsFile), isCsvFile f = false →
        (handleDrop s (some f)).file = s.file ∧
        (handleDrop s (some f)).message = "Please upload a CSV file only." ∧
        (handleFileSelect s (some f)).file = s.file ∧
        (handleFileSelect s (some f)).message = "Please upload a CSV file only.") ∧
    (∀ (evs : List UploadEvent) (e : UploadEvent) (f : JsFile),
        submittedBy (uploadStateAfter evs) e = some f → isCsvFile f = true) := by
  constructor
  · intro s f hf
    refine ⟨?_, ?_, ?_, ?_⟩ <;> simp [handleDrop, handleFileSelect, hf]
  · intro evs e f hsub
    cases e with
    | drop g => simp [submittedBy] at hsub
    | pick g => simp [submittedBy] at hsub
    | submit er =>
        have hfile : (uploadStateAfter evs).file = some f := by
          rw [submittedBy] at hsub
          cases hsf : (uploadStateAfter evs).file with
          | none => simp [handleSubmit, hsf] at hsub
          | some g =>
              cases er <;> simp [handleSubmit, hsf] at hsub <;> rw [hsub]
        exact foldl_csv_inv evs uploadState0
          (by intro g hg; simp [uploadState0] at hg) f hfile

/-- Claim C10 witness: a dropped plain-text file is rejected with the
selected-file state unchanged, and the file submitted after dropping a
CSV file passes the CSV test. -/
theorem upload_csv_only_witness :
    (handleDrop uploadState0
        (some { mimeType := "text/plain", name := "notes.txt" })).file =
      uploadState0.file ∧
    isCsvFile { mimeType := "text/csv", name := "data.csv" } = true := by
  constructor
  · exact (upload_csv_only.1 uploadState0
      { mimeType := "text/plain", name := "notes.txt" } (by decide)).1
  · exact upload_csv_only.2
      [UploadEvent.drop (some { mimeType := "text/csv", name := "data.csv" })]
      (UploadEvent.submit false) { mimeType := "text/csv", name := "data.csv" }
      (by decide)

end DataViz
